import Mathlib

/-!
Verification of the declarative attribute-filter evaluation engine of
`pkg/selector/selector.go` (amazon-ec2-instance-selector).

The shallow embedding below translates the Go source into Lean:

* Go maps (`map[string]*ec2.InstanceTypeInfo`, `map[string]string`) become
  association lists with overwrite-on-insert semantics (`insertA`, `eraseA`,
  `lookupA`); the final extraction of map values is followed by a sort on the
  unique keys, so the list order chosen here is immaterial, just as Go's
  random map-iteration order is.
* The paginated AWS calls `DescribeInstanceTypesPages` and
  `DescribeInstanceTypeOfferingsPages` become an `EC2Client` record holding
  the successfully delivered pages and the error, if any, of the request that
  follows them; the page callback of the Go SDK becomes a fold with early
  stop (`runPage` / `runPages`).
* Go's `nil` pointers become `Option`; a Go function that can only fail with
  an `error` becomes `Except String` (a Go error is identified with its
  message text); a Go slice expression that can panic becomes an
  `Option`-returning function where `none` models the runtime panic.
* The three regular expressions (`zoneIDRegex`, `zoneNameRegex`,
  `regionNameRegex`) are compiled by hand into decidable matchers on
  character lists; `regexp.MatchString` semantics (search anywhere, so a
  leading `^` anchors at the start and a missing `$` leaves the end free)
  are preserved.
* The `reflect`-based two-level type-switch dispatch of `executeFilters`
  becomes a match on closed inductives `FilterVal` (the dynamic type of a
  filter value) and `InstanceSpec` (the dynamic type of a record attribute).

The repository's `Filters` struct, `IntRangeFilter`, the comparator bodies
(`isSupportedFromStrings` and friends), the derived-attribute helpers
(`getTotalGpuMemory`, `getTotalGpusCount`, `supportSyntaxToBool`,
`calculateVCpusToMemoryRatio`, `getNetworkPerformance`) and the `outputs`
package live in files that are not part of the sources under review; those
definitions are modelled from the specification and say so in their doc
comments.  Everything else is translated from `selector.go` directly.
-/

namespace EC2Selector

/-! ## Association-list maps (Go `map` semantics) -/

/-- Lookup in an association list, the embedding of a Go map read. -/
def lookupA {β : Type} : List (String × β) → String → Option β
  | [], _ => none
  | (k, v) :: rest, key => if k = key then some v else lookupA rest key

/-- Insert/overwrite in an association list, the embedding of `m[k] = v`. -/
def insertA {β : Type} : List (String × β) → String → β → List (String × β)
  | [], key, v => [(key, v)]
  | (k, w) :: rest, key, v =>
      if k = key then (key, v) :: rest else (k, w) :: insertA rest key v

/-- Remove a key, the embedding of `delete(m, k)`. -/
def eraseA {β : Type} : List (String × β) → String → List (String × β)
  | [], _ => []
  | (k, w) :: rest, key =>
      if k = key then eraseA rest key else (k, w) :: eraseA rest key

/-! ## Location regular expressions

Go source (`selector.go`):

* `regionNameRegex = ^[a-z]{2,3}\-([a-z]{1,10}\-)?[a-z]{1,10}\-[1-9]`
  (no `$`: a match of this shape at the start suffices);
* `zoneIDRegex = ^[a-z]{3}[1-9]{1}\-az[1-9]$`;
* `zoneNameRegex = ^[a-z]{2,3}\-([a-z]{1,10}\-)?[a-z]{1,10}\-[1-9][a-z]$`.

The bounded runs `[a-z]{lo,hi}` are always followed in these patterns by a
character that is not a lowercase letter (`-` or `[1-9]`), so a match must
consume a maximal lowercase run whose length lies in `[lo, hi]`; the only
genuine nondeterminism is the optional group, expanded below into its two
alternatives. -/

/-- `[a-z]` character class. -/
def isLowerAlpha (c : Char) : Bool := ('a' ≤ c) && (c ≤ 'z')

/-- `[1-9]` character class. -/
def isDigit19 (c : Char) : Bool := ('1' ≤ c) && (c ≤ '9')

/-- Split off the maximal leading run of lowercase letters. -/
def takeLowerRun : List Char → List Char × List Char
  | [] => ([], [])
  | c :: cs =>
      if isLowerAlpha c then
        let (run, rest) := takeLowerRun cs
        (c :: run, rest)
      else ([], c :: cs)

/-- Consume `[a-z]{lo,hi}\-`; `none` when the text does not start that way. -/
def segDash (cs : List Char) (lo hi : Nat) : Option (List Char) :=
  let (run, rest) := takeLowerRun cs
  if lo ≤ run.length && run.length ≤ hi then
    match rest with
    | [] => none
    | c :: rest2 => if c = '-' then some rest2 else none
  else none

/-- All possible remainders after matching
`[a-z]{2,3}\-([a-z]{1,10}\-)?[a-z]{1,10}\-[1-9]` at the start of `cs`
(first the alternative with the optional group, then the one without). -/
def coreRests (cs : List Char) : List (List Char) :=
  match segDash cs 2 3 with
  | none => []
  | some rest =>
    match segDash rest 1 10 with
    | none => []
    | some r2 =>
      let withGroup :=
        match segDash r2 1 10 with
        | none => []
        | some r3 =>
          match r3 with
          | [] => []
          | c :: r4 => if isDigit19 c then [r4] else []
      let noGroup :=
        match r2 with
        | [] => []
        | c :: r4 => if isDigit19 c then [r4] else []
      withGroup ++ noGroup

/-- `regexp.MatchString(regionNameRegex, s)`: the pattern has no trailing
`$`, so any remainder is allowed. -/
def matchesRegionName (s : String) : Bool :=
  match coreRests s.toList with
  | [] => false
  | _ :: _ => true

/-- `regexp.MatchString(zoneNameRegex, s)`: the core followed by exactly one
lowercase letter and the end of the string. -/
def matchesZoneName (s : String) : Bool :=
  (coreRests s.toList).any fun rest =>
    match rest with
    | [c] => isLowerAlpha c
    | _ => false

/-- `zoneIDRegex` on a character list: exactly `[a-z]{3}[1-9]\-az[1-9]`. -/
def matchesZoneIDL : List Char → Bool
  | [a, b, c, d, e, f, g, h] =>
      isLowerAlpha a && isLowerAlpha b && isLowerAlpha c && isDigit19 d &&
      (e = '-') && (f = 'a') && (g = 'z') && isDigit19 h
  | _ => false

/-- `regexp.MatchString(zoneIDRegex, s)`. -/
def matchesZoneID (s : String) : Bool :=
  matchesZoneIDL s.toList

/-! ## Data model

`ec2.InstanceTypeInfo` restricted to the fields `selector.go` reads.  The Go
fields are pointers assumed present (the source dereferences them without nil
checks), so they are modelled as plain values. -/

/-- `ec2.ProcessorInfo`, the field read at `selector.go:150`. -/
structure ProcessorInfo where
  supportedArchitectures : List String
  deriving DecidableEq, Repr

/-- `ec2.VCpuInfo`, the field read at `selector.go:154`. -/
structure VCpuInfo where
  defaultVCpus : Int
  deriving DecidableEq, Repr

/-- `ec2.MemoryInfo`, the field read at `selector.go:155`. -/
structure MemoryInfo where
  sizeInMiB : Int
  deriving DecidableEq, Repr

/-- Modelled from the spec: the GPU information block, of which the engine
only uses two derived integers — the total GPU memory and the total GPU
count (`getTotalGpuMemory`/`getTotalGpusCount` are not among the sources
under review). -/
structure GpuInfo where
  totalGpuMemory : Int
  totalGpus : Int
  deriving DecidableEq, Repr

/-- `ec2.PlacementGroupInfo`, the field read at `selector.go:158`. -/
structure PlacementGroupInfo where
  supportedStrategies : List String
  deriving DecidableEq, Repr

/-- `ec2.NetworkInfo`: the three fields read at `selector.go:163,166,167`. -/
structure NetworkInfo where
  enaSupport : String
  maximumNetworkInterfaces : Int
  networkPerformance : String
  deriving DecidableEq, Repr

/-- One catalog record (`ec2.InstanceTypeInfo`).  `fpgaInfo` keeps only the
presence bit, since `selector.go:145` reads `FpgaInfo != nil` and nothing
else. -/
structure InstanceTypeInfo where
  instanceType : String
  processorInfo : ProcessorInfo
  supportedUsageClasses : List String
  supportedRootDeviceTypes : List String
  hibernationSupported : Bool
  vCpuInfo : VCpuInfo
  memoryInfo : MemoryInfo
  gpuInfo : Option GpuInfo
  placementGroupInfo : PlacementGroupInfo
  hypervisor : String
  bareMetal : Bool
  burstablePerformanceSupported : Bool
  fpgaInfo : Option Unit
  currentGeneration : Bool
  networkInfo : NetworkInfo
  deriving DecidableEq, Repr

/-- Modelled from the spec: `IntRangeFilter` is not among the sources under
review; the spec describes a numeric-range filter as "minimum bound, maximum
bound; either may be absent, meaning unbounded on that side". -/
structure IntRangeFilter where
  lowerBound : Option Int
  upperBound : Option Int
  deriving DecidableEq, Repr

/-- Modelled from the spec: the `Filters` struct is not among the sources
under review; its fields are exactly those `selector.go` reads
(lines 126–129, 150–167 and `MaxResults` at line 95), each independently
optional.  The derived-ratio filter value is a float in Go, modelled as a
rational. -/
structure Filters where
  cpuArchitecture : Option String := none
  usageClass : Option String := none
  rootDeviceType : Option String := none
  hibernationSupported : Option Bool := none
  vCpusRange : Option IntRangeFilter := none
  memoryRange : Option IntRangeFilter := none
  gpuMemoryRange : Option IntRangeFilter := none
  gpusRange : Option IntRangeFilter := none
  placementGroupStrategy : Option String := none
  hypervisor : Option String := none
  bareMetal : Option Bool := none
  burstable : Option Bool := none
  fpga : Option Bool := none
  enaSupport : Option Bool := none
  vCpusToMemoryRatio : Option Rat := none
  currentGeneration : Option Bool := none
  networkInterfaces : Option IntRangeFilter := none
  networkPerformance : Option IntRangeFilter := none
  availabilityZone : Option String := none
  region : Option String := none
  maxResults : Option Int := none

/-- The all-absent `FilterSpecification`. -/
def emptyFilters : Filters := {}

/-! ## Derived attributes and comparators

All of these live outside the sources under review; each is modelled from
the spec's words. -/

/-- Modelled from the spec: "total GPU memory (derived integer, 0 if no GPU
info)" (`getTotalGpuMemory` is not among the sources under review). -/
def getTotalGpuMemory : Option GpuInfo → Int
  | none => 0
  | some g => g.totalGpuMemory

/-- Modelled from the spec: "total GPU count (derived integer)", "0 when no
GPU info is present" (`getTotalGpusCount` is not among the sources under
review). -/
def getTotalGpusCount : Option GpuInfo → Int
  | none => 0
  | some g => g.totalGpus

/-- Modelled from the spec: "enhanced-networking-support (tri-state mapped
to bool: 'unsupported' → false, anything else → true)"
(`supportSyntaxToBool` is not among the sources under review). -/
def supportSyntaxToBool (s : String) : Bool :=
  if s = "unsupported" then false else true

/-- Modelled from the spec: "vCPU-to-memory ratio (derived float,
vCPU/memory)"; the spec's rounding to a fixed precision is left out, no
claim depends on it (`calculateVCpusToMemoryRatio` is not among the sources
under review). -/
def calculateVCpusToMemoryRatio (vcpus : Int) (memoryMiB : Int) : Rat :=
  (vcpus : Rat) / (memoryMiB : Rat)

/-- Read a leading run of decimal digits. -/
def readDigits : List Char → Nat → Nat × List Char
  | [], acc => (acc, [])
  | c :: cs, acc =>
      if c.isDigit then readDigits cs (acc * 10 + (c.toNat - '0'.toNat))
      else (acc, c :: cs)

/-- Value of the first maximal digit run, if any. -/
def findFirstNumber : List Char → Option Nat
  | [] => none
  | c :: cs => if c.isDigit then some (readDigits (c :: cs) 0).1
               else findFirstNumber cs

/-- Modelled from the spec: "network performance bandwidth (derived integer
parsed from a descriptive string, e.g. 'Up to 10 Gigabit' → 10)"; a string
with no digits yields −1, a detail the spec leaves open
(`getNetworkPerformance` is not among the sources under review). -/
def getNetworkPerformance (s : String) : Int :=
  match findFirstNumber s.toList with
  | none => -1
  | some n => (n : Int)

/-- Modelled from the spec: "scalar-exact string vs. set attribute: pass iff
the set contains the filter value" (case-sensitive set membership;
`isSupportedFromStrings` is not among the sources under review). -/
def isSupportedFromStrings (specValues : List String) (filterValue : String) : Bool :=
  specValues.contains filterValue

/-- Modelled from the spec: "scalar-exact string vs. scalar attribute: pass
iff equal" (`isSupportedFromString` is not among the sources under
review). -/
def isSupportedFromString (specValue filterValue : String) : Bool :=
  specValue = filterValue

/-- Modelled from the spec: "scalar-exact boolean vs. scalar boolean
attribute: pass iff equal" (`isSupportedWithBool` is not among the sources
under review). -/
def isSupportedWithBool (specValue filterValue : Bool) : Bool :=
  specValue = filterValue

/-- Modelled from the spec: "pass iff attribute ≥ min (if min present) and
≤ max (if max present); both bounds inclusive" (`isSupportedWithRangeInt64`
is not among the sources under review). -/
def isSupportedWithRangeInt64 (specValue : Int) (filter : IntRangeFilter) : Bool :=
  (match filter.lowerBound with
   | none => true
   | some lo => decide (lo ≤ specValue)) &&
  (match filter.upperBound with
   | none => true
   | some hi => decide (specValue ≤ hi))

/-- Modelled from the spec: the same inclusive-bound rule for a Go `int`
attribute (`isSupportedWithRangeInt` is not among the sources under
review). -/
def isSupportedWithRangeInt (specValue : Int) (filter : IntRangeFilter) : Bool :=
  isSupportedWithRangeInt64 specValue filter

/-- Modelled from the spec: the dispatch in `selector.go` pairs a scalar
float filter value with a scalar float attribute (the derived ratio), so the
comparison is scalar-exact (`isSupportedWithFloat64` is not among the
sources under review). -/
def isSupportedWithFloat64 (specValue filterValue : Rat) : Bool :=
  specValue = filterValue

/-! ## Filter dispatch (`executeFilters`, `selector.go:213-277`)

The Go code switches on the dynamic type of the filter value (always one of
`*string`, `*bool`, `*IntRangeFilter`, `*float64`) and then on the dynamic
type of the record attribute (`[]*string`, `*string`, `*bool`, `*int64`,
`*int`, `*float64`).  Those two closed sets of runtime shapes become the
inductives below; a `nil` pointer is the `none` inside the shape. -/

/-- Dynamic type of a filter value in a `filterPair`. -/
inductive FilterVal where
  | str (v : Option String)
  | bool (v : Option Bool)
  | intRange (v : Option IntRangeFilter)
  | float (v : Option Rat)
  deriving DecidableEq, Repr

/-- Dynamic type of a record attribute in a `filterPair`. -/
inductive InstanceSpec where
  | strList (v : List String)
  | str (v : String)
  | bool (v : Bool)
  | int64 (v : Int)
  | int (v : Int)
  | float (v : Rat)
  deriving DecidableEq, Repr

/-- `filterPair` (`selector.go`): user filter value paired with the record
attribute it is checked against. -/
structure filterPair where
  filterValue : FilterVal
  instanceSpec : InstanceSpec
  deriving DecidableEq, Repr

/-- The stable core of the Go diagnostic
`"filter (%s: %s => %s) corresponding to instance spec (%s => %s) for
instance type %s"`; the `%s` interpolations of runtime values and reflected
type names are elided (they never influence control flow). -/
def filterDetailsMsg (filterName instanceType : String) : String :=
  "filter (" ++ filterName ++ ") corresponding to instance spec for instance type "
    ++ instanceType

/-- `executeFilters` (`selector.go:213-277`): iterate the pairs; a `nil`
filter is skipped; a matched comparator that fails yields `(false, nil)`,
embedded as `.ok false`; a filter-value shape paired with an attribute shape
it has no comparator for yields the `UnsupportedFilterType` error, embedded
as `.error`; if every pair passes the result is `.ok true`.  The Go map of
pairs is iterated here in the source-literal order; the `.ok` outcomes are
order-independent (proved below), which is why the random iteration order of
a Go map is harmless in the error-free runs. -/
def executeFilters : List (String × filterPair) → String → Except String Bool
  | [], _ => Except.ok true
  | (filterName, p) :: rest, instanceType =>
    match p.filterValue, p.instanceSpec with
    | FilterVal.str none, _ => executeFilters rest instanceType
    | FilterVal.bool none, _ => executeFilters rest instanceType
    | FilterVal.intRange none, _ => executeFilters rest instanceType
    | FilterVal.float none, _ => executeFilters rest instanceType
    | FilterVal.str (some filter), InstanceSpec.strList iSpec =>
        if !isSupportedFromStrings iSpec filter then Except.ok false
        else executeFilters rest instanceType
    | FilterVal.str (some filter), InstanceSpec.str iSpec =>
        if !isSupportedFromString iSpec filter then Except.ok false
        else executeFilters rest instanceType
    | FilterVal.str (some _), _ =>
        Except.error ("Unable to process for " ++ filterDetailsMsg filterName instanceType)
    | FilterVal.bool (some filter), InstanceSpec.bool iSpec =>
        if !isSupportedWithBool iSpec filter then Except.ok false
        else executeFilters rest instanceType
    | FilterVal.bool (some _), _ =>
        Except.error ("Unable to process for " ++ filterDetailsMsg filterName instanceType)
    | FilterVal.intRange (some filter), InstanceSpec.int64 iSpec =>
        if !isSupportedWithRangeInt64 iSpec filter then Except.ok false
        else executeFilters rest instanceType
    | FilterVal.intRange (some filter), InstanceSpec.int iSpec =>
        if !isSupportedWithRangeInt iSpec filter then Except.ok false
        else executeFilters rest instanceType
    | FilterVal.intRange (some _), _ =>
        Except.error ("Unable to process for " ++ filterDetailsMsg filterName instanceType)
    | FilterVal.float (some filter), InstanceSpec.float iSpec =>
        if !isSupportedWithFloat64 iSpec filter then Except.ok false
        else executeFilters rest instanceType
    | FilterVal.float (some _), _ =>
        Except.error ("Unable to process for " ++ filterDetailsMsg filterName instanceType)

/-- The verdict of one pair in isolation: `true` when the filter is absent
or its comparator passes, `false` when the comparator fails or the pairing
has no comparator.  Used to state the AND-composition of
`executeFilters`. -/
def pairOK (p : filterPair) : Bool :=
  match p.filterValue, p.instanceSpec with
  | FilterVal.str none, _ => true
  | FilterVal.bool none, _ => true
  | FilterVal.intRange none, _ => true
  | FilterVal.float none, _ => true
  | FilterVal.str (some filter), InstanceSpec.strList iSpec => isSupportedFromStrings iSpec filter
  | FilterVal.str (some filter), InstanceSpec.str iSpec => isSupportedFromString iSpec filter
  | FilterVal.str (some _), _ => false
  | FilterVal.bool (some filter), InstanceSpec.bool iSpec => isSupportedWithBool iSpec filter
  | FilterVal.bool (some _), _ => false
  | FilterVal.intRange (some filter), InstanceSpec.int64 iSpec => isSupportedWithRangeInt64 iSpec filter
  | FilterVal.intRange (some filter), InstanceSpec.int iSpec => isSupportedWithRangeInt iSpec filter
  | FilterVal.intRange (some _), _ => false
  | FilterVal.float (some filter), InstanceSpec.float iSpec => isSupportedWithFloat64 iSpec filter
  | FilterVal.float (some _), _ => false

/-- `filterToInstanceSpecMappingPairs` (`selector.go:149-168`): the fixed
association of each named filter with the record attribute it is checked
against, in the order of the Go map literal. -/
def filterToInstanceSpecMappingPairs (filters : Filters) (iti : InstanceTypeInfo) :
    List (String × filterPair) :=
  let isFpga : Bool := iti.fpgaInfo.isSome
  [ ("cpuArchitecture",
      ⟨FilterVal.str filters.cpuArchitecture,
       InstanceSpec.strList iti.processorInfo.supportedArchitectures⟩),
    ("usageClass",
      ⟨FilterVal.str filters.usageClass,
       InstanceSpec.strList iti.supportedUsageClasses⟩),
    ("rootDeviceType",
      ⟨FilterVal.str filters.rootDeviceType,
       InstanceSpec.strList iti.supportedRootDeviceTypes⟩),
    ("hibernationSupported",
      ⟨FilterVal.bool filters.hibernationSupported,
       InstanceSpec.bool iti.hibernationSupported⟩),
    ("vcpusRange",
      ⟨FilterVal.intRange filters.vCpusRange,
       InstanceSpec.int64 iti.vCpuInfo.defaultVCpus⟩),
    ("memoryRange",
      ⟨FilterVal.intRange filters.memoryRange,
       InstanceSpec.int64 iti.memoryInfo.sizeInMiB⟩),
    ("gpuMemoryRange",
      ⟨FilterVal.intRange filters.gpuMemoryRange,
       InstanceSpec.int64 (getTotalGpuMemory iti.gpuInfo)⟩),
    ("gpusRange",
      ⟨FilterVal.intRange filters.gpusRange,
       InstanceSpec.int64 (getTotalGpusCount iti.gpuInfo)⟩),
    ("placementGroupStrategy",
      ⟨FilterVal.str filters.placementGroupStrategy,
       InstanceSpec.strList iti.placementGroupInfo.supportedStrategies⟩),
    ("hypervisor",
      ⟨FilterVal.str filters.hypervisor, InstanceSpec.str iti.hypervisor⟩),
    ("baremetal",
      ⟨FilterVal.bool filters.bareMetal, InstanceSpec.bool iti.bareMetal⟩),
    ("burstable",
      ⟨FilterVal.bool filters.burstable,
       InstanceSpec.bool iti.burstablePerformanceSupported⟩),
    ("fpga",
      ⟨FilterVal.bool filters.fpga, InstanceSpec.bool isFpga⟩),
    ("enaSupport",
      ⟨FilterVal.bool filters.enaSupport,
       InstanceSpec.bool (supportSyntaxToBool iti.networkInfo.enaSupport)⟩),
    ("vcpusToMemoryRatio",
      ⟨FilterVal.float filters.vCpusToMemoryRatio,
       InstanceSpec.float (calculateVCpusToMemoryRatio iti.vCpuInfo.defaultVCpus
         iti.memoryInfo.sizeInMiB)⟩),
    ("currentGeneration",
      ⟨FilterVal.bool filters.currentGeneration,
       InstanceSpec.bool iti.currentGeneration⟩),
    ("networkInterfaces",
      ⟨FilterVal.intRange filters.networkInterfaces,
       InstanceSpec.int64 iti.networkInfo.maximumNetworkInterfaces⟩),
    ("networkPerformance",
      ⟨FilterVal.intRange filters.networkPerformance,
       InstanceSpec.int (getNetworkPerformance iti.networkInfo.networkPerformance)⟩) ]

/-! ## External paging primitives

`DescribeInstanceTypesPages` and `DescribeInstanceTypeOfferingsPages` are
external collaborators.  A paginated call is modelled by the pages its
successful requests delivered, in order, plus the error, if any, of the
request that would follow them: the SDK hands each delivered page to the
callback and stops either when the callback answers `false` (in which case
no further request is made and no error can surface) or when a request
fails (in which case the error is returned and no further page arrives).
The offerings call takes the location type and location value the input was
built from. -/

/-- The provider handle (`Selector.EC2`). -/
structure EC2Client where
  instanceTypePages : List (List InstanceTypeInfo)
  instanceTypePagesErr : Option String
  instanceTypeOfferingPages : String → String → List (List (String × String))
  instanceTypeOfferingPagesErr : String → String → Option String

/-- Location type tags (`selector.go:44-46`). -/
def zoneIDLocationType : String := "availability-zone-id"

/-- Location type tag for a zone name. -/
def zoneNameLocationType : String := "availability-zone"

/-- Location type tag for a region. -/
def regionNameLocationType : String := "region"

/-- The offerings page callback (`selector.go:304-309`): insert every
`(instance type, location)` pair of every page into the map; the callback
always answers `true`. -/
def buildOfferings : List (List (String × String)) → List (String × String) →
    List (String × String)
  | [], m => m
  | page :: rest, m =>
      buildOfferings rest (page.foldl (fun acc p => insertA acc p.1 p.2) m)

/-- `RetrieveInstanceTypesSupportedInLocation` (`selector.go:282-314`).
An empty location returns `nil, nil` — no index at all (`.ok none`),
distinct from an index with no entries (`.ok (some [])`).  Otherwise the
location is classified by the three ordered regex checks; no match is the
`InvalidLocationFormat` error; a provider error is wrapped with the fixed
context prefix. -/
def RetrieveInstanceTypesSupportedInLocation (itf : EC2Client) (zone : String) :
    Except String (Option (List (String × String))) :=
  if zone = "" then Except.ok none
  else
    let locationType? : Option String :=
      if matchesZoneID zone then some zoneIDLocationType
      else if matchesZoneName zone then some zoneNameLocationType
      else if matchesRegionName zone then some regionNameLocationType
      else none
    match locationType? with
    | none =>
        Except.error ("The location passed in (" ++ zone ++
          ") is not a valid zone-id, zone-name, or region name")
    | some locationType =>
      match itf.instanceTypeOfferingPagesErr locationType zone with
      | some e =>
          Except.error ("Encountered an error when describing instance type offerings: " ++ e)
      | none =>
          Except.ok (some (buildOfferings (itf.instanceTypeOfferingPages locationType zone) []))

/-- `isSupportedInLocation` (`selector.go:316-322`): a `nil` index means no
restriction; otherwise the record name must be a key of the index. -/
def isSupportedInLocation (instanceOfferings : Option (List (String × String)))
    (instanceType : String) : Bool :=
  match instanceOfferings with
  | none => true
  | some m => (lookupA m instanceType).isSome

/-! ## Candidate aggregation (`rawFilter`, `selector.go:124-199`) -/

/-- The body of the per-record loop (`selector.go:142-182`): insert the
record into the candidate map, drop it again if the location check fails,
then run filter dispatch — a dispatch error is recorded (and will stop the
paging), a failed dispatch removes the record. -/
def processRecord (table : Filters → InstanceTypeInfo → List (String × filterPair))
    (filters : Filters) (offerings : Option (List (String × String)))
    (cands : List (String × InstanceTypeInfo)) (iti : InstanceTypeInfo) :
    List (String × InstanceTypeInfo) × Option String :=
  let instanceTypeName := iti.instanceType
  let cands1 := insertA cands instanceTypeName iti
  let cands2 :=
    if isSupportedInLocation offerings instanceTypeName then cands1
    else eraseA cands1 instanceTypeName
  match executeFilters (table filters iti) instanceTypeName with
  | Except.error e => (cands2, some e)
  | Except.ok isInstanceSupported =>
      (if isInstanceSupported then cands2 else eraseA cands2 instanceTypeName, none)

/-- One page of the `DescribeInstanceTypesPages` callback
(`selector.go:141-186`): process the records in order; a recorded dispatch
error stops the record loop immediately. -/
def runPage (table : Filters → InstanceTypeInfo → List (String × filterPair))
    (filters : Filters) (offerings : Option (List (String × String))) :
    List InstanceTypeInfo → List (String × InstanceTypeInfo) →
    List (String × InstanceTypeInfo) × Option String
  | [], cands => (cands, none)
  | iti :: rest, cands =>
    match processRecord table filters offerings cands iti with
    | (cands', some e) => (cands', some e)
    | (cands', none) => runPage table filters offerings rest cands'

/-- The paginated sweep: the callback answers `false` exactly when a
dispatch error was recorded, which stops the remaining pages. -/
def runPages (table : Filters → InstanceTypeInfo → List (String × filterPair))
    (filters : Filters) (offerings : Option (List (String × String))) :
    List (List InstanceTypeInfo) → List (String × InstanceTypeInfo) →
    List (String × InstanceTypeInfo) × Option String
  | [], cands => (cands, none)
  | page :: rest, cands =>
    match runPage table filters offerings page cands with
    | (cands', some e) => (cands', some e)
    | (cands', none) => runPages table filters offerings rest cands'

/-- `sortInstanceTypeInfo` (`selector.go:202-209`): sort ascending on the
instance type name (`strings.Compare(i, j) <= 0`); within `rawFilter` the
names are unique map keys, so this total order has no ties and any correct
sort yields the same sequence. -/
def sortInstanceTypeInfo (instanceTypeInfoSlice : List InstanceTypeInfo) :
    List InstanceTypeInfo :=
  List.insertionSort (fun a b => a.instanceType ≤ b.instanceType) instanceTypeInfoSlice

/-- The `location` local of `rawFilter` (`selector.go:125-130`):
`AvailabilityZone` wins over `Region`; both absent means the empty
string. -/
def filtersLocation (filters : Filters) : String :=
  match filters.availabilityZone with
  | some z => z
  | none =>
    match filters.region with
    | some r => r
    | none => ""

/-- `rawFilter` (`selector.go:124-199`) with the pair table as a parameter
(the moving part `executeFilters` itself receives as an argument): resolve
the location, sweep the catalog pages pruning the candidate map, then
propagate — a paging error of the catalog call verbatim, a recorded
dispatch error as-is — or extract the surviving records and sort them. -/
def rawFilterWith (table : Filters → InstanceTypeInfo → List (String × filterPair))
    (itf : EC2Client) (filters : Filters) : Except String (List InstanceTypeInfo) :=
  match RetrieveInstanceTypesSupportedInLocation itf (filtersLocation filters) with
  | Except.error e => Except.error e
  | Except.ok locationInstanceOfferings =>
    match runPages table filters locationInstanceOfferings itf.instanceTypePages [] with
    | (_, some innerErr) => Except.error innerErr
    | (instanceTypeCandidates, none) =>
      match itf.instanceTypePagesErr with
      | some err => Except.error err
      | none =>
          Except.ok (sortInstanceTypeInfo (instanceTypeCandidates.map Prod.snd))

/-- `rawFilter` proper: `rawFilterWith` at the fixed table of
`selector.go:149-168`. -/
def rawFilter (itf : EC2Client) (filters : Filters) :
    Except String (List InstanceTypeInfo) :=
  rawFilterWith filterToInstanceSpecMappingPairs itf filters

/-! ## Result finalisation and entry points -/

/-- `truncateResults` (`selector.go:111-120`).  The Go body slices
`instanceTypeInfoSlice[0:upperIndex]` where `upperIndex` is `*maxResults`
clamped from above (only!) to the length; a negative `upperIndex` makes the
slice expression panic at runtime, modelled as `none`. -/
def truncateResults (maxResults : Option Int) (instanceTypeInfoSlice : List InstanceTypeInfo) :
    Option (List InstanceTypeInfo) :=
  match maxResults with
  | none => some instanceTypeInfoSlice
  | some m =>
    let upperIndex : Int :=
      if (instanceTypeInfoSlice.length : Int) < m then (instanceTypeInfoSlice.length : Int)
      else m
    if 0 ≤ upperIndex then some (instanceTypeInfoSlice.take upperIndex.toNat)
    else none

/-- `FilterVerbose` (`selector.go:90-97`): `rawFilter` then truncation;
`none` is the truncation panic escaping. -/
def FilterVerbose (itf : EC2Client) (filters : Filters) :
    Option (Except String (List InstanceTypeInfo)) :=
  match rawFilter itf filters with
  | Except.error e => some (Except.error e)
  | Except.ok instanceTypeInfoSlice =>
    match truncateResults filters.maxResults instanceTypeInfoSlice with
    | none => none
    | some truncated => some (Except.ok truncated)

/-- `FilterWithOutput` (`selector.go:101-109`): `rawFilter`, truncation,
then the caller-supplied output function. -/
def FilterWithOutput (itf : EC2Client) (filters : Filters)
    (outputFn : List InstanceTypeInfo → List String) :
    Option (Except String (List String)) :=
  match rawFilter itf filters with
  | Except.error e => some (Except.error e)
  | Except.ok instanceTypeInfoSlice =>
    match truncateResults filters.maxResults instanceTypeInfoSlice with
    | none => none
    | some truncated => some (Except.ok (outputFn truncated))

/-- Modelled from the spec: `outputs.SimpleInstanceTypeOutput`, the default
formatter of `Filter` ("a simple list of instance type strings"), is not
among the sources under review. -/
def SimpleInstanceTypeOutput (instanceTypeInfoSlice : List InstanceTypeInfo) : List String :=
  instanceTypeInfoSlice.map InstanceTypeInfo.instanceType

/-- `Filter` (`selector.go:83-86`): `FilterWithOutput` at the default
formatter. -/
def Filter (itf : EC2Client) (filters : Filters) : Option (Except String (List String)) :=
  FilterWithOutput itf filters SimpleInstanceTypeOutput

/-- One of the 18 named filter fields of a `FilterSpecification`. -/
inductive FilterField where
  | cpuArchitecture | usageClass | rootDeviceType | hibernationSupported
  | vCpusRange | memoryRange | gpuMemoryRange | gpusRange
  | placementGroupStrategy | hypervisor | bareMetal | burstable
  | fpga | enaSupport | vCpusToMemoryRatio | currentGeneration
  | networkInterfaces | networkPerformance
  deriving DecidableEq

/-- Remove one filter from the specification (set the field to absent). -/
def clearField : FilterField → Filters → Filters
  | FilterField.cpuArchitecture, f => { f with cpuArchitecture := none }
  | FilterField.usageClass, f => { f with usageClass := none }
  | FilterField.rootDeviceType, f => { f with rootDeviceType := none }
  | FilterField.hibernationSupported, f => { f with hibernationSupported := none }
  | FilterField.vCpusRange, f => { f with vCpusRange := none }
  | FilterField.memoryRange, f => { f with memoryRange := none }
  | FilterField.gpuMemoryRange, f => { f with gpuMemoryRange := none }
  | FilterField.gpusRange, f => { f with gpusRange := none }
  | FilterField.placementGroupStrategy, f => { f with placementGroupStrategy := none }
  | FilterField.hypervisor, f => { f with hypervisor := none }
  | FilterField.bareMetal, f => { f with bareMetal := none }
  | FilterField.burstable, f => { f with burstable := none }
  | FilterField.fpga, f => { f with fpga := none }
  | FilterField.enaSupport, f => { f with enaSupport := none }
  | FilterField.vCpusToMemoryRatio, f => { f with vCpusToMemoryRatio := none }
  | FilterField.currentGeneration, f => { f with currentGeneration := none }
  | FilterField.networkInterfaces, f => { f with networkInterfaces := none }
  | FilterField.networkPerformance, f => { f with networkPerformance := none }

/-- A concrete catalog record for witnesses, with the given name, vCPU count
and memory size. -/
def sampleInstanceType (name : String) (vcpus mem : Int) : InstanceTypeInfo :=
  { instanceType := name
    processorInfo := ⟨["x86_64"]⟩
    supportedUsageClasses := ["on-demand"]
    supportedRootDeviceTypes := ["ebs"]
    hibernationSupported := false
    vCpuInfo := ⟨vcpus⟩
    memoryInfo := ⟨mem⟩
    gpuInfo := none
    placementGroupInfo := ⟨["cluster"]⟩
    hypervisor := "nitro"
    bareMetal := false
    burstablePerformanceSupported := false
    fpgaInfo := none
    currentGeneration := true
    networkInfo := ⟨"supported", 4, "Up to 10 Gigabit"⟩ }

/-- A concrete provider for witnesses: the given catalog pages, no paging
error, no offerings. -/
def sampleClient (pages : List (List InstanceTypeInfo)) : EC2Client :=
  { instanceTypePages := pages
    instanceTypePagesErr := none
    instanceTypeOfferingPages := fun _ _ => []
    instanceTypeOfferingPagesErr := fun _ _ => none }

/-! ## Association-list lemmas -/

theorem lookupA_insertA_self {β : Type} (m : List (String × β)) (key : String) (v : β) :
    lookupA (insertA m key v) key = some v := by
  induction m with
  | nil => simp [insertA, lookupA]
  | cons kv rest ih =>
    obtain ⟨k, w⟩ := kv
    by_cases h : k = key
    · simp [insertA, h, lookupA]
    · simp [insertA, h, lookupA, ih]

theorem lookupA_eraseA_self {β : Type} (m : List (String × β)) (key : String) :
    lookupA (eraseA m key) key = none := by
  induction m with
  | nil => simp [eraseA, lookupA]
  | cons kv rest ih =>
    obtain ⟨k, w⟩ := kv
    by_cases h : k = key
    · simp [eraseA, h, ih]
    · simp [eraseA, h, lookupA, ih]

theorem lookupA_isSome_iff {β : Type} (m : List (String × β)) (key : String) :
    (lookupA m key).isSome = true ↔ ∃ v, (key, v) ∈ m := by
  induction m with
  | nil => simp [lookupA]
  | cons kv rest ih =>
    obtain ⟨k, w⟩ := kv
    by_cases h : k = key
    · subst h
      simp [lookupA]
    · simp only [lookupA, if_neg h, ih, List.mem_cons, Prod.mk.injEq]
      constructor
      · rintro ⟨v, hv⟩; exact ⟨v, Or.inr hv⟩
      · rintro ⟨v, ⟨hk, -⟩ | hv⟩
        · exact absurd hk.symm h
        · exact ⟨v, hv⟩

/-! ## Claim C3 — location membership -/

/-- C3: the location-membership check passes iff the index is absent (no
restriction was requested) or the record's name is a key of the index; an
empty input location string yields no index at all (`.ok none`, distinct
from the produced-but-empty `.ok (some [])`), so with an empty location no
record is ever excluded on location grounds. -/
theorem c3_location_membership :
    (∀ (off : Option (List (String × String))) (name : String),
       isSupportedInLocation off name = true ↔
         (off = none ∨ ∃ m loc, off = some m ∧ (name, loc) ∈ m))
  ∧ (∀ itf : EC2Client, RetrieveInstanceTypesSupportedInLocation itf "" = Except.ok none)
  ∧ (∀ name : String, isSupportedInLocation none name = true)
  ∧ (Except.ok (some ([] : List (String × String))) ≠
       (Except.ok none : Except String (Option (List (String × String))))) := by
  refine ⟨?_, ?_, ?_, ?_⟩
  · intro off name
    cases off with
    | none => simp [isSupportedInLocation]
    | some m =>
      simp only [isSupportedInLocation, lookupA_isSome_iff]
      constructor
      · rintro ⟨v, hv⟩; exact Or.inr ⟨m, v, rfl, hv⟩
      · rintro (h | ⟨m', loc, hm, hmem⟩)
        · exact absurd h (by simp)
        · cases Option.some.inj hm; exact ⟨loc, hmem⟩
  · intro itf
    rfl
  · intro name
    rfl
  · intro h
    simpa using Except.ok.inj h

/-! ## Claim C4 — truncation -/

/-- C4: truncation of the sorted sequence — an absent maximum returns the
sequence unchanged; a maximum above the length returns it unchanged; zero
yields the empty sequence; otherwise exactly the first `m` entries in the
same relative order. -/
theorem c4_truncation (l : List InstanceTypeInfo) (m : Int) :
    truncateResults none l = some l
  ∧ ((l.length : Int) < m → truncateResults (some m) l = some l)
  ∧ truncateResults (some 0) l = some []
  ∧ (0 ≤ m → m ≤ (l.length : Int) → truncateResults (some m) l = some (l.take m.toNat)) := by
  refine ⟨rfl, ?_, ?_, ?_⟩
  · intro h
    have h0 : (0 : Int) ≤ (l.length : Int) := Int.natCast_nonneg _
    simp only [truncateResults]
    rw [if_pos h, if_pos h0]
    simp
  · have h1 : ¬((l.length : Int) < 0) := by omega
    simp only [truncateResults]
    rw [if_neg h1, if_pos (le_refl (0 : Int))]
    simp
  · intro h0 hle
    simp only [truncateResults]
    rw [if_neg (not_lt.mpr hle), if_pos h0]

/-- Witness for C4 at a two-element sequence and maximum 1. -/
theorem c4_truncation_witness :
    truncateResults (some 1)
        [sampleInstanceType "a1.large" 2 4096, sampleInstanceType "b1.large" 4 8192] =
      some [sampleInstanceType "a1.large" 2 4096] := by
  have h := (c4_truncation
    [sampleInstanceType "a1.large" 2 4096, sampleInstanceType "b1.large" 4 8192] 1).2.2.2
    (by decide) (by decide)
  simpa using h

/-! ## Claim C10 — negative maximum-result-count panics -/

/-- C10: `truncateResults` is total only for non-negative present maxima:
a present negative maximum reaches the Go slice expression with a negative
upper index, which panics (modelled `none`) instead of producing a value or
an error, and the panic escapes through `FilterVerbose`, `Filter` and
`FilterWithOutput`. -/
theorem c10_negative_max_panics :
    (∀ (m : Int) (l : List InstanceTypeInfo), m < 0 → truncateResults (some m) l = none)
  ∧ (∀ (itf : EC2Client) (filters : Filters) (l : List InstanceTypeInfo) (m : Int),
       rawFilter itf filters = Except.ok l → filters.maxResults = some m → m < 0 →
       FilterVerbose itf filters = none ∧ Filter itf filters = none ∧
       ∀ outputFn, FilterWithOutput itf filters outputFn = none) := by
  have htrunc : ∀ (m : Int) (l : List InstanceTypeInfo), m < 0 →
      truncateResults (some m) l = none := by
    intro m l hm
    have h1 : ¬((l.length : Int) < m) := by omega
    have h2 : ¬((0 : Int) ≤ m) := by omega
    simp only [truncateResults]
    rw [if_neg h1, if_neg h2]
  refine ⟨htrunc, ?_⟩
  intro itf filters l m hraw hmax hm
  have hwo : ∀ outputFn, FilterWithOutput itf filters outputFn = none := by
    intro outputFn
    simp only [FilterWithOutput, hraw, hmax, htrunc m l hm]
  exact ⟨by simp only [FilterVerbose, hraw, hmax, htrunc m l hm], hwo _, hwo⟩

/-- Witness for C10: maximum −1 on a one-record catalog makes all three
entry points panic. -/
theorem c10_negative_max_panics_witness :
    FilterVerbose (sampleClient [[sampleInstanceType "a1.large" 2 4096]])
        { maxResults := some (-1) } = none
  ∧ Filter (sampleClient [[sampleInstanceType "a1.large" 2 4096]])
        { maxResults := some (-1) } = none := by
  have h := c10_negative_max_panics.2
    (sampleClient [[sampleInstanceType "a1.large" 2 4096]])
    { maxResults := some (-1) }
    [sampleInstanceType "a1.large" 2 4096] (-1) (by rfl) (by rfl) (by decide)
  exact ⟨h.1, h.2.1⟩

/-! ## Claims C6 and C7 — location classification -/

theorem digit19_not_lower {c : Char} (h : isDigit19 c = true) : isLowerAlpha c = false := by
  simp only [isDigit19, Bool.and_eq_true, decide_eq_true_eq] at h
  have hlow : decide ('a' ≤ c) = false :=
    decide_eq_false fun hac => absurd (le_trans hac h.2) (by decide)
  simp [isLowerAlpha, hlow]

theorem digit19_ne_dash {c : Char} (h : isDigit19 c = true) : ¬(c = '-') := by
  intro hc
  subst hc
  exact absurd h (by decide)

/-- A zone-id-shaped string fails the shared core of the zone-name and
region patterns: its fourth character is a digit where the core demands a
dash after a 2- or 3-letter run. -/
theorem coreRests_of_zoneID {cs : List Char} (h : matchesZoneIDL cs = true) :
    coreRests cs = [] := by
  unfold matchesZoneIDL at h
  split at h
  · next a b c d e f g h8 =>
    simp only [Bool.and_eq_true, decide_eq_true_eq] at h
    obtain ⟨⟨⟨⟨⟨⟨⟨ha, hb⟩, hc⟩, hd⟩, he⟩, hf⟩, hg⟩, hh⟩ := h
    simp [coreRests, segDash, takeLowerRun, ha, hb, hc,
      digit19_not_lower hd, digit19_ne_dash hd]
  · exact absurd h (by simp)

/-- C6 counterexample: `us-east-1a` is a non-empty location string matched
by both the zone-name pattern and the (end-unanchored) region pattern, so
the three patterns are not mutually exclusive. -/
theorem c6_counterexample :
    matchesZoneName "us-east-1a" = true ∧ matchesRegionName "us-east-1a" = true ∧
    "us-east-1a" ≠ "" := by
  refine ⟨by decide, by decide, by decide⟩

/-- C6 amended: the zone-id pattern is disjoint from the other two, but
every string the zone-name pattern matches is also matched by the region
pattern, whose regex has no trailing anchor; classification stays
deterministic only because the code tests zone-id, then zone-name, then
region, in that order. -/
theorem c6_patterns_amended (s : String) :
    (matchesZoneID s = true → matchesZoneName s = false ∧ matchesRegionName s = false)
  ∧ (matchesZoneName s = true → matchesRegionName s = true) := by
  constructor
  · intro h
    have hcore : coreRests s.toList = [] := coreRests_of_zoneID h
    constructor
    · unfold matchesZoneName
      rw [hcore]
      rfl
    · unfold matchesRegionName
      rw [hcore]
  · intro h
    unfold matchesZoneName at h
    unfold matchesRegionName
    cases hcr : coreRests s.toList with
    | nil => rw [hcr] at h; simp at h
    | cons r rs => simp

/-- Witness for C6 amended, at the zone-id `use1-az1` and the zone-name
`us-east-1a`. -/
theorem c6_patterns_amended_witness :
    (matchesZoneName "use1-az1" = false ∧ matchesRegionName "use1-az1" = false)
  ∧ matchesRegionName "us-east-1a" = true := by
  exact ⟨(c6_patterns_amended "use1-az1").1 (by decide),
         (c6_patterns_amended "us-east-1a").2 (by decide)⟩

/-- C7: a non-empty location string matching none of the three patterns
makes location resolution fail immediately with the `InvalidLocationFormat`
error; the result does not depend on the provider handle — universally
quantifying the client is exactly "no availability-provider and no catalog
fetch is attempted" — and the whole filter invocation fails with the same
error. -/
theorem c7_invalid_location_format :
    (∀ (itf : EC2Client) (zone : String), zone ≠ "" →
       matchesZoneID zone = false → matchesZoneName zone = false →
       matchesRegionName zone = false →
       RetrieveInstanceTypesSupportedInLocation itf zone =
         Except.error ("The location passed in (" ++ zone ++
           ") is not a valid zone-id, zone-name, or region name"))
  ∧ (∀ (itf : EC2Client) (filters : Filters) (zone : String),
       filters.availabilityZone = some zone → zone ≠ "" →
       matchesZoneID zone = false → matchesZoneName zone = false →
       matchesRegionName zone = false →
       rawFilter itf filters =
         Except.error ("The location passed in (" ++ zone ++
           ") is not a valid zone-id, zone-name, or region name")) := by
  have hret : ∀ (itf : EC2Client) (zone : String), zone ≠ "" →
      matchesZoneID zone = false → matchesZoneName zone = false →
      matchesRegionName zone = false →
      RetrieveInstanceTypesSupportedInLocation itf zone =
        Except.error ("The location passed in (" ++ zone ++
          ") is not a valid zone-id, zone-name, or region name") := by
    intro itf zone hz hID hZN hR
    simp [RetrieveInstanceTypesSupportedInLocation, hz, hID, hZN, hR]
  refine ⟨hret, ?_⟩
  intro itf filters zone havail hz hID hZN hR
  have hloc : filtersLocation filters = zone := by
    simp [filtersLocation, havail]
  rw [rawFilter, rawFilterWith, hloc, hret itf zone hz hID hZN hR]

/-- Witness for C7 at the location `not-a-zone`. -/
theorem c7_invalid_location_format_witness :
    rawFilter (sampleClient []) { availabilityZone := some "not-a-zone" } =
      Except.error ("The location passed in (not-a-zone)" ++
        " is not a valid zone-id, zone-name, or region name") := by
  have h := c7_invalid_location_format.2 (sampleClient [])
    { availabilityZone := some "not-a-zone" } "not-a-zone"
    rfl (by decide) (by decide) (by decide) (by decide)
  simpa using h

/-! ## Claim C1 — AND composition and monotonicity of filter removal -/

/-- `executeFilters` is the conjunction of the per-pair verdicts: the
record is accepted iff every pair passes, where an absent filter passes
vacuously (`pairOK` of a `nil` filter value is `true`). -/
theorem executeFilters_eq_all (pairs : List (String × filterPair)) (t : String) :
    (executeFilters pairs t = Except.ok true) ↔
      (pairs.all fun q => pairOK q.2) = true := by
  induction pairs with
  | nil => simp [executeFilters]
  | cons hd tl ih =>
    obtain ⟨n, fv, is⟩ := hd
    cases fv with
    | str v =>
      cases v with
      | none => simpa [executeFilters, pairOK] using ih
      | some f =>
        cases is with
        | strList xs =>
          cases hcomp : isSupportedFromStrings xs f <;>
            simp [executeFilters, pairOK, hcomp, ih]
        | str sv =>
          cases hcomp : isSupportedFromString sv f <;>
            simp [executeFilters, pairOK, hcomp, ih]
        | bool bv => simp [executeFilters, pairOK]
        | int64 iv => simp [executeFilters, pairOK]
        | int iv => simp [executeFilters, pairOK]
        | float qv => simp [executeFilters, pairOK]
    | bool v =>
      cases v with
      | none => simpa [executeFilters, pairOK] using ih
      | some f =>
        cases is with
        | bool bv =>
          cases hcomp : isSupportedWithBool bv f <;>
            simp [executeFilters, pairOK, hcomp, ih]
        | strList xs => simp [executeFilters, pairOK]
        | str sv => simp [executeFilters, pairOK]
        | int64 iv => simp [executeFilters, pairOK]
        | int iv => simp [executeFilters, pairOK]
        | float qv => simp [executeFilters, pairOK]
    | intRange v =>
      cases v with
      | none => simpa [executeFilters, pairOK] using ih
      | some f =>
        cases is with
        | int64 iv =>
          cases hcomp : isSupportedWithRangeInt64 iv f <;>
            simp [executeFilters, pairOK, hcomp, ih]
        | int iv =>
          cases hcomp : isSupportedWithRangeInt iv f <;>
            simp [executeFilters, pairOK, hcomp, ih]
        | strList xs => simp [executeFilters, pairOK]
        | str sv => simp [executeFilters, pairOK]
        | bool bv => simp [executeFilters, pairOK]
        | float qv => simp [executeFilters, pairOK]
    | float v =>
      cases v with
      | none => simpa [executeFilters, pairOK] using ih
      | some f =>
        cases is with
        | float qv =>
          cases hcomp : isSupportedWithFloat64 qv f <;>
            simp [executeFilters, pairOK, hcomp, ih]
        | strList xs => simp [executeFilters, pairOK]
        | str sv => simp [executeFilters, pairOK]
        | bool bv => simp [executeFilters, pairOK]
        | int64 iv => simp [executeFilters, pairOK]
        | int iv => simp [executeFilters, pairOK]

/-- C1: filter-dispatch evaluation is an AND over the individually-optional
filters — a record is accepted iff every pair passes, with an absent filter
passing vacuously (so absence never excludes) — and removing any one filter
from the specification can only keep an accepted record accepted (the
matched set can only grow). -/
theorem c1_and_composition :
    (∀ (pairs : List (String × filterPair)) (t : String),
       (executeFilters pairs t = Except.ok true) ↔
         (pairs.all fun q => pairOK q.2) = true)
  ∧ (∀ (fld : FilterField) (filters : Filters) (iti : InstanceTypeInfo) (t : String),
       executeFilters (filterToInstanceSpecMappingPairs filters iti) t = Except.ok true →
       executeFilters (filterToInstanceSpecMappingPairs (clearField fld filters) iti) t =
         Except.ok true) := by
  refine ⟨executeFilters_eq_all, ?_⟩
  intro fld filters iti t h
  rw [executeFilters_eq_all] at h ⊢
  cases fld <;> simp_all [filterToInstanceSpecMappingPairs, clearField, pairOK]

/-- Witness for C1: a specification whose only present filter (a vCPU range)
passes on a 2-vCPU record stays accepted after that filter is removed. -/
theorem c1_and_composition_witness :
    executeFilters
      (filterToInstanceSpecMappingPairs
        (clearField FilterField.vCpusRange { vCpusRange := some ⟨some 2, some 2⟩ })
        (sampleInstanceType "t3.micro" 2 1024)) "t3.micro" = Except.ok true :=
  c1_and_composition.2 FilterField.vCpusRange { vCpusRange := some ⟨some 2, some 2⟩ }
    (sampleInstanceType "t3.micro" 2 1024) "t3.micro" (by rfl)

/-! ## Claim C5 — the empty specification is the identity -/

/-- The all-absent specification accepts every record: each of the 18 pairs
is skipped as `nil`. -/
theorem executeFilters_empty (iti : InstanceTypeInfo) (t : String) :
    executeFilters (filterToInstanceSpecMappingPairs emptyFilters iti) t =
      Except.ok true := rfl

theorem processRecord_empty (cands : List (String × InstanceTypeInfo))
    (iti : InstanceTypeInfo) :
    processRecord filterToInstanceSpecMappingPairs emptyFilters none cands iti =
      (insertA cands iti.instanceType iti, none) := by
  simp [processRecord, isSupportedInLocation, executeFilters_empty]

theorem runPage_empty (page : List InstanceTypeInfo)
    (cands : List (String × InstanceTypeInfo)) :
    runPage filterToInstanceSpecMappingPairs emptyFilters none page cands =
      (page.foldl (fun c r => insertA c r.instanceType r) cands, none) := by
  induction page generalizing cands with
  | nil => simp [runPage]
  | cons r rest ih => simp [runPage, processRecord_empty, ih]

theorem runPages_empty (pages : List (List InstanceTypeInfo))
    (cands : List (String × InstanceTypeInfo)) :
    runPages filterToInstanceSpecMappingPairs emptyFilters none pages cands =
      ((pages.flatten).foldl (fun c r => insertA c r.instanceType r) cands, none) := by
  induction pages generalizing cands with
  | nil => simp [runPages]
  | cons page rest ih =>
      simp [runPages, runPage_empty, ih, List.foldl_append]

theorem lookupA_append_of_none {β : Type} (m₁ m₂ : List (String × β)) (key : String)
    (h : lookupA m₁ key = none) : lookupA (m₁ ++ m₂) key = lookupA m₂ key := by
  induction m₁ with
  | nil => simp
  | cons kv rest ih =>
    obtain ⟨k, v⟩ := kv
    by_cases hk : k = key
    · simp [lookupA, hk] at h
    · simp only [lookupA, if_neg hk] at h
      simpa [lookupA, hk] using ih h

theorem insertA_of_lookup_none {β : Type} (m : List (String × β)) (key : String) (v : β)
    (h : lookupA m key = none) : insertA m key v = m ++ [(key, v)] := by
  induction m with
  | nil => simp [insertA]
  | cons kv rest ih =>
    obtain ⟨k, w⟩ := kv
    by_cases hk : k = key
    · simp [lookupA, hk] at h
    · simp only [lookupA, if_neg hk] at h
      simp [insertA, hk, ih h]

/-- Inserting records with pairwise-distinct, fresh names appends them in
order. -/
theorem foldl_insertA_fresh (recs : List InstanceTypeInfo)
    (cands : List (String × InstanceTypeInfo))
    (hfresh : ∀ r ∈ recs, lookupA cands r.instanceType = none)
    (hnodup : (recs.map InstanceTypeInfo.instanceType).Nodup) :
    recs.foldl (fun c r => insertA c r.instanceType r) cands =
      cands ++ recs.map (fun r => (r.instanceType, r)) := by
  induction recs generalizing cands with
  | nil => simp
  | cons r rest ih =>
    simp only [List.map_cons, List.nodup_cons, List.mem_map] at hnodup
    obtain ⟨hname, hnodup'⟩ := hnodup
    have h0 : lookupA cands r.instanceType = none := hfresh r (List.mem_cons_self _ _)
    have hstep : insertA cands r.instanceType r = cands ++ [(r.instanceType, r)] :=
      insertA_of_lookup_none _ _ _ h0
    have hfresh' : ∀ r' ∈ rest, lookupA (cands ++ [(r.instanceType, r)]) r'.instanceType = none := by
      intro r' hr'
      rw [lookupA_append_of_none _ _ _ (hfresh r' (List.mem_cons_of_mem _ hr'))]
      have hne : ¬(r.instanceType = r'.instanceType) := fun he => hname ⟨r', hr', he.symm⟩
      simp [lookupA, hne]
    simp only [List.foldl_cons, hstep, ih _ hfresh' hnodup', List.append_assoc,
      List.singleton_append, List.map_cons]

/-- C5: with every filter field absent and no location restriction, the
filter invocation returns the entire catalog as a sequence sorted ascending
on the (unique) catalog-item names. -/
theorem c5_empty_spec_identity (itf : EC2Client)
    (hpagesErr : itf.instanceTypePagesErr = none)
    (hnodup : ((itf.instanceTypePages.flatten).map InstanceTypeInfo.instanceType).Nodup) :
    ∃ res, rawFilter itf emptyFilters = Except.ok res ∧
      res.Perm itf.instanceTypePages.flatten ∧
      List.Sorted (fun a b => a.instanceType ≤ b.instanceType) res := by
  refine ⟨sortInstanceTypeInfo itf.instanceTypePages.flatten, ?_, ?_, ?_⟩
  · have hfold := foldl_insertA_fresh itf.instanceTypePages.flatten []
      (by intro r _; rfl) hnodup
    simp only [rawFilter, rawFilterWith]
    have hret : RetrieveInstanceTypesSupportedInLocation itf (filtersLocation emptyFilters) =
        Except.ok none := rfl
    rw [hret]
    dsimp only
    rw [runPages_empty]
    dsimp only
    rw [hpagesErr]
    dsimp only
    rw [hfold]
    have hcomp : (Prod.snd ∘ fun r : InstanceTypeInfo => (r.instanceType, r)) = id := rfl
    simp [List.map_map, hcomp]
  · exact List.perm_insertionSort _ _
  · haveI : IsTotal InstanceTypeInfo (fun a b => a.instanceType ≤ b.instanceType) :=
      ⟨fun a b => le_total _ _⟩
    haveI : IsTrans InstanceTypeInfo (fun a b => a.instanceType ≤ b.instanceType) :=
      ⟨fun a b c hab hbc => le_trans hab hbc⟩
    exact List.sorted_insertionSort _ _

/-- Witness for C5: a two-page, three-record catalog with scrambled names
comes back whole and sorted. -/
theorem c5_empty_spec_identity_witness :
    ∃ res, rawFilter (sampleClient
        [[sampleInstanceType "m5.xlarge" 4 16384, sampleInstanceType "m5.large" 2 8192],
         [sampleInstanceType "t3.micro" 2 1024]]) emptyFilters = Except.ok res ∧
      res.Perm ([[sampleInstanceType "m5.xlarge" 4 16384, sampleInstanceType "m5.large" 2 8192],
         [sampleInstanceType "t3.micro" 2 1024]] : List (List InstanceTypeInfo)).flatten ∧
      List.Sorted (fun a b => a.instanceType ≤ b.instanceType) res :=
  c5_empty_spec_identity (sampleClient
      [[sampleInstanceType "m5.xlarge" 4 16384, sampleInstanceType "m5.large" 2 8192],
       [sampleInstanceType "t3.micro" 2 1024]]) rfl (by decide)

/-! ## Claim C2 — a dispatch error aborts the whole operation

With the fixed, well-typed pair table of `selector.go:149-168` the
`UnsupportedFilterType` error is unreachable (every filter-value shape is
paired with an attribute shape it has a comparator for), so the claim is
settled at the generality at which the source states it: `executeFilters`
takes the pair table as an argument, and `rawFilterWith` abstracts
`rawFilter` over exactly that argument. -/

/-- C2: if filter dispatch reports the unsupported-filter-type error on any
record, the record loop of the current page stops at that record (the
result does not depend on the rest of the page), the page loop stops at the
current page (the result does not depend on the remaining pages), and the
whole operation returns that error and no candidate list. -/
theorem c2_dispatch_error_aborts :
    (∀ (table : Filters → InstanceTypeInfo → List (String × filterPair))
       (filters : Filters) (off : Option (List (String × String)))
       (r : InstanceTypeInfo) (rest : List InstanceTypeInfo)
       (cands : List (String × InstanceTypeInfo)) (e : String),
       executeFilters (table filters r) r.instanceType = Except.error e →
       runPage table filters off (r :: rest) cands =
         ((processRecord table filters off cands r).1, some e))
  ∧ (∀ (table : Filters → InstanceTypeInfo → List (String × filterPair))
       (filters : Filters) (off : Option (List (String × String)))
       (page : List InstanceTypeInfo) (pages : List (List InstanceTypeInfo))
       (cands c : List (String × InstanceTypeInfo)) (e : String),
       runPage table filters off page cands = (c, some e) →
       runPages table filters off (page :: pages) cands = (c, some e))
  ∧ (∀ (table : Filters → InstanceTypeInfo → List (String × filterPair))
       (itf : EC2Client) (filters : Filters)
       (off : Option (List (String × String)))
       (c : List (String × InstanceTypeInfo)) (e : String),
       RetrieveInstanceTypesSupportedInLocation itf (filtersLocation filters) =
         Except.ok off →
       runPages table filters off itf.instanceTypePages [] = (c, some e) →
       rawFilterWith table itf filters = Except.error e) := by
  refine ⟨?_, ?_, ?_⟩
  · intro table filters off r rest cands e hexec
    simp [runPage, processRecord, hexec]
  · intro table filters off page pages cands c e hpage
    simp [runPages, hpage]
  · intro table itf filters off c e hret hrun
    simp only [rawFilterWith]
    rw [hret]
    dsimp only
    rw [hrun]

/-- Witness for C2: a one-pair table pairing a string filter with a boolean
attribute makes the one-record run fail with the dispatch error and no
list. -/
theorem c2_dispatch_error_aborts_witness :
    rawFilterWith (fun _ _ => [("bad", ⟨FilterVal.str (some "x"), InstanceSpec.bool true⟩)])
      (sampleClient [[sampleInstanceType "a1.large" 2 4096]]) emptyFilters =
      Except.error ("Unable to process for " ++ filterDetailsMsg "bad" "a1.large") :=
  c2_dispatch_error_aborts.2.2
    (fun _ _ => [("bad", ⟨FilterVal.str (some "x"), InstanceSpec.bool true⟩)])
    (sampleClient [[sampleInstanceType "a1.large" 2 4096]]) emptyFilters none
    [("a1.large", sampleInstanceType "a1.large" 2 4096)]
    ("Unable to process for " ++ filterDetailsMsg "bad" "a1.large")
    (by rfl) (by rfl)

/-! ## Claim C8 — paging errors -/

/-- C8 counterexample: a catalog-paging error (`"boom"`) is propagated to
the caller exactly as the paging primitive reported it — `rawFilter` adds
no wrapping and no context identifying the failing call (contrast the
availability-provider path, which prefixes its fixed context string). -/
theorem c8_counterexample :
    rawFilter
        { instanceTypePages := []
          instanceTypePagesErr := some "boom"
          instanceTypeOfferingPages := fun _ _ => []
          instanceTypeOfferingPagesErr := fun _ _ => none } emptyFilters =
      Except.error "boom" := rfl

/-- C8 amended: every paging-primitive error aborts the operation with no
partial result, but only availability-provider errors are wrapped with
context identifying the failing call ("Encountered an error when describing
instance type offerings: "); catalog-provider errors are propagated
verbatim, with nothing added. -/
theorem c8_paging_errors_amended :
    (∀ (itf : EC2Client) (filters : Filters) (off : Option (List (String × String)))
       (cands : List (String × InstanceTypeInfo)) (e : String),
       RetrieveInstanceTypesSupportedInLocation itf (filtersLocation filters) =
         Except.ok off →
       runPages filterToInstanceSpecMappingPairs filters off itf.instanceTypePages [] =
         (cands, none) →
       itf.instanceTypePagesErr = some e →
       rawFilter itf filters = Except.error e)
  ∧ (∀ (itf : EC2Client) (zone : String) (e : String),
       zone ≠ "" →
       (matchesZoneID zone || matchesZoneName zone || matchesRegionName zone) = true →
       (∀ locationType, itf.instanceTypeOfferingPagesErr locationType zone = some e) →
       RetrieveInstanceTypesSupportedInLocation itf zone =
         Except.error ("Encountered an error when describing instance type offerings: " ++ e)) := by
  constructor
  · intro itf filters off cands e hret hrun hpagesErr
    simp only [rawFilter, rawFilterWith]
    rw [hret]
    dsimp only
    rw [hrun]
    dsimp only
    rw [hpagesErr]
  · intro itf zone e hz hmatch herr
    simp only [RetrieveInstanceTypesSupportedInLocation, if_neg hz]
    by_cases hID : matchesZoneID zone = true
    · simp [hID, herr]
    · by_cases hZN : matchesZoneName zone = true
      · simp [hID, hZN, herr]
      · by_cases hR : matchesRegionName zone = true
        · simp [hID, hZN, hR, herr]
        · rw [Bool.not_eq_true] at hID hZN hR
          rw [hID, hZN, hR] at hmatch
          simp at hmatch

/-- Witness for C8 amended: a catalog-paging error `"boom"` comes back
verbatim, and an availability-provider error `"bang"` comes back wrapped. -/
theorem c8_paging_errors_amended_witness :
    rawFilter
        { instanceTypePages := [[sampleInstanceType "a1.large" 2 4096]]
          instanceTypePagesErr := some "boom"
          instanceTypeOfferingPages := fun _ _ => []
          instanceTypeOfferingPagesErr := fun _ _ => none } emptyFilters =
      Except.error "boom"
  ∧ RetrieveInstanceTypesSupportedInLocation
        { instanceTypePages := []
          instanceTypePagesErr := none
          instanceTypeOfferingPages := fun _ _ => []
          instanceTypeOfferingPagesErr := fun _ _ => some "bang" } "us-east-1" =
      Except.error ("Encountered an error when describing instance type offerings: bang") := by
  constructor
  · exact c8_paging_errors_amended.1
      { instanceTypePages := [[sampleInstanceType "a1.large" 2 4096]]
        instanceTypePagesErr := some "boom"
        instanceTypeOfferingPages := fun _ _ => []
        instanceTypeOfferingPagesErr := fun _ _ => none } emptyFilters none
      [("a1.large", sampleInstanceType "a1.large" 2 4096)] "boom"
      (by rfl) (by rfl) (by rfl)
  · have h := c8_paging_errors_amended.2
      { instanceTypePages := []
        instanceTypePagesErr := none
        instanceTypeOfferingPages := fun _ _ => []
        instanceTypeOfferingPagesErr := fun _ _ => some "bang" } "us-east-1" "bang"
      (by decide) (by decide) (fun _ => rfl)
    simpa using h

/-! ## Claim C9 — re-evaluation of repeated names -/

/-- C9 counterexample: with the vCPU range `[4,4]`, the only record of page
one (name `x1.large`, 2 vCPUs) is inserted and then removed — after page
one the candidate set is empty — yet a record of the same name on page two
(4 vCPUs) is re-inserted and is the final result, so a removed name is
reconsidered: the last occurrence wins, not the first. -/
theorem c9_counterexample :
    runPage filterToInstanceSpecMappingPairs
        { vCpusRange := some ⟨some 4, some 4⟩ } none
        [sampleInstanceType "x1.large" 2 8192] [] = ([], none)
  ∧ rawFilter
      (sampleClient [[sampleInstanceType "x1.large" 2 8192],
                     [sampleInstanceType "x1.large" 4 8192]])
      { vCpusRange := some ⟨some 4, some 4⟩ } =
      Except.ok [sampleInstanceType "x1.large" 4 8192] :=
  ⟨rfl, rfl⟩

/-- C9 amended: every occurrence of a record name is evaluated afresh — the
candidate entry for the name after processing a record is determined by
that record's own location and filter verdicts alone, whatever the previous
state of the candidate set for that name was: a removed record is
re-inserted when a later same-named record passes (last occurrence wins;
with the provider assumed never to repeat names across pages, each name is
evaluated exactly once and the two readings coincide). -/
theorem c9_last_occurrence_wins
    (table : Filters → InstanceTypeInfo → List (String × filterPair))
    (filters : Filters) (off : Option (List (String × String)))
    (cands : List (String × InstanceTypeInfo)) (r : InstanceTypeInfo) (b : Bool)
    (hexec : executeFilters (table filters r) r.instanceType = Except.ok b) :
    lookupA (processRecord table filters off cands r).1 r.instanceType =
      (if isSupportedInLocation off r.instanceType && b then some r else none) := by
  simp only [processRecord, hexec]
  cases hloc : isSupportedInLocation off r.instanceType <;> cases b <;>
    simp [hloc, lookupA_insertA_self, lookupA_eraseA_self]

/-- Witness for C9 amended: after the removal of `x1.large` (candidate set
empty), the later 4-vCPU `x1.large` is re-inserted by its own passing
verdict. -/
theorem c9_last_occurrence_wins_witness :
    lookupA (processRecord filterToInstanceSpecMappingPairs
        { vCpusRange := some ⟨some 4, some 4⟩ } none []
        (sampleInstanceType "x1.large" 4 8192)).1 "x1.large" =
      some (sampleInstanceType "x1.large" 4 8192) := by
  have h := c9_last_occurrence_wins filterToInstanceSpecMappingPairs
    { vCpusRange := some ⟨some 4, some 4⟩ } none []
    (sampleInstanceType "x1.large" 4 8192) true (by rfl)
  simpa using h

end EC2Selector
